import Mathlib

/-!
Verification of the orchestration logic of `src/training/finetune.py`
(a LoRA fine-tuning script).  The script's own logic is the dataset
loader `load_dataset`, the split/early-stopping decision inside `train`,
and the control flow of `main`; everything else is delegated to external
ML libraries.  We shallowly embed those three pieces and prove the
spec's claims about them.
-/

set_option autoImplicit false

namespace Finetune

/--
One line of the JSONL input file, as the Python loop classifies it:
`blank` when `line.strip()` is empty (the loop `continue`s),
`malformed` when `json.loads(line)` raises a decode error, and
`obj fields` when the line parses to a JSON object whose field values
are strings (the input format documented by the spec is
a JSON object with string fields `prompt` and `completion`).
-/
inductive PyLine where
  | blank
  | malformed
  | obj (fields : List (String × String))
deriving DecidableEq

/-- The exception `json.loads` raises on a malformed line; it propagates
uncaught out of `load_dataset`. -/
inductive PyError where
  | jsonDecodeError
deriving DecidableEq

/-- Python `item.get(key, "")` on the dict built by `json.loads` from
`fields`; a later duplicate key overrides an earlier one, as in Python
dicts. -/
def jsonGet (fields : List (String × String)) (key : String) : String :=
  match fields.reverse.find? (fun kv => kv.1 == key) with
  | some kv => kv.2
  | none => ""

/-- Helper for `pyReplace`: walk the character list left to right; at
each position, if the (non-empty) pattern starts here, emit the
replacement and jump past the matched occurrence, otherwise keep the
character.  The fuel argument is only a structural-recursion bound; it
is always called with fuel equal to the list length, which suffices
because each step consumes at least one character. -/
def replaceFuel (pat rep : List Char) : Nat → List Char → List Char
  | _, [] => []
  | 0, s => s
  | fuel + 1, c :: cs =>
    if pat.isPrefixOf (c :: cs) then
      rep ++ replaceFuel pat rep fuel (List.drop pat.length (c :: cs))
    else
      c :: replaceFuel pat rep fuel cs

/-- Python `s.replace(pat, rep)` for a non-empty pattern: replace every
left-to-right, non-overlapping occurrence of `pat` in `s` by `rep`. -/
def pyReplace (s pat rep : String) : String :=
  (replaceFuel pat.toList rep.toList s.toList.length s.toList).asString

/-- Python `s.strip()`: remove leading and trailing whitespace. -/
def pyStrip (s : String) : String :=
  (((s.toList.dropWhile Char.isWhitespace).reverse.dropWhile Char.isWhitespace).reverse).asString

/-- Line 82: `prompt.replace("用户: ", "").replace("User: ", "")`. -/
def stripPromptLabels (prompt : String) : String :=
  pyReplace (pyReplace prompt "用户: " "") "User: " ""

/-- Line 83: `completion.replace("助手: ", "").replace("Assistant: ", "")`. -/
def stripCompletionLabels (completion : String) : String :=
  pyReplace (pyReplace completion "助手: " "") "Assistant: " ""

/-- Line 85: the f-string chat template
`<|im_start|>user\n{prompt}<|im_end|>\n<|im_start|>assistant\n{completion}<|im_end|>`. -/
def mkText (prompt completion : String) : String :=
  "<|im_start|>user\n" ++ prompt ++ "<|im_end|>\n<|im_start|>assistant\n"
    ++ completion ++ "<|im_end|>"

/-- Lines 78-86: the body of the loader loop for one parsed JSON object.
`item.get` defaults each field to `""`; the record is kept only when
`if prompt and completion:` holds, i.e. both strings are non-empty
(Python string truthiness); then labels are stripped and the pair is
templated. -/
def processLine (fields : List (String × String)) : Option String :=
  let prompt := jsonGet fields "prompt"
  let completion := jsonGet fields "completion"
  if prompt ≠ "" ∧ completion ≠ "" then
    some (mkText (stripPromptLabels prompt) (stripCompletionLabels completion))
  else
    none

/-- Lines 68-89, `load_dataset`: iterate over the lines in order, skip
blank lines, let the `json.loads` exception propagate on a malformed
line (aborting the whole call), and append one templated record for
each object with non-empty `prompt` and `completion`. -/
def load_dataset : List PyLine → Except PyError (List String)
  | [] => Except.ok []
  | PyLine.blank :: rest => load_dataset rest
  | PyLine.malformed :: _ => Except.error PyError.jsonDecodeError
  | PyLine.obj fields :: rest =>
    match load_dataset rest with
    | Except.error e => Except.error e
    | Except.ok records =>
      match processLine fields with
      | some text => Except.ok (text :: records)
      | none => Except.ok records

/--
Observable effect of `train` (lines 147-210).  The optimization loop
itself is a library call; the script's own logic decides whether to
split, with which arguments, and whether to attach the early-stopping
callback.  `splitCall` records the `(test_size, seed)` pair passed to
`dataset.train_test_split` when the call is made (the Python literal
`0.1` is modelled by the rational one tenth); `trainLen` and `evalLen`
are the sizes of the datasets handed to the trainer.
-/
structure TrainResult where
  splitCall : Option (ℚ × Nat)
  trainLen : Nat
  evalLen : Option Nat
  earlyStopping : Bool
deriving DecidableEq

/-- Lines 147-210, `train`, applied to a dataset of `n` records.
The library routine `train_test_split` is an opaque parameter `split`
mapping `(test_size, seed, n)` to the sizes of the train and test
shards.  Per lines 150-154 the split happens exactly when `n > 20`,
with `test_size=0.1` and `seed=42`; per lines 177-179 the
early-stopping callback is attached exactly when `eval_dataset` was
produced. -/
def train (split : ℚ → Nat → Nat → Nat × Nat) (n : Nat) : TrainResult :=
  if n > 20 then
    let shards := split (1 / 10) 42 n
    { splitCall := some (1 / 10, 42), trainLen := shards.1,
      evalLen := some shards.2, earlyStopping := true }
  else
    { splitCall := none, trainLen := n, evalLen := none, earlyStopping := false }

/--
Observable outcome of one run of `main` (lines 233-285), assuming the
external library calls (model loading, training, export) succeed.
`exitCode` is the process exit status: `some 1` for the two `sys.exit(1)`
paths, `some 0` for a completed run, and `none` when an uncaught
exception (the `json.loads` failure) propagates to the process
boundary.  `dirCreated` records whether `os.makedirs(output_dir)` on
line 242 ran.  `trainRun` is the result of the `train` call, and
`trainSamples` is the `train_samples` value written to `config.json`
(line 275), when the run gets that far.
-/
structure MainRun where
  exitCode : Option Nat
  dirCreated : Bool
  trainRun : Option TrainResult
  trainSamples : Option Nat
deriving DecidableEq

/-- Lines 233-285, `main`: check that the data file exists (exit 1
before any directory is created otherwise), create the timestamped
output directory, load the dataset (a decode error propagates), exit 1
on an empty dataset, otherwise train on the full dataset and write
`config.json` with `train_samples = len(dataset)` — the `dataset`
variable of `main`, which the local rebinding inside `train` does not
affect. -/
def main (split : ℚ → Nat → Nat → Nat × Nat) (dataExists : Bool)
    (file : List PyLine) : MainRun :=
  if dataExists then
    match load_dataset file with
    | Except.error _ =>
      { exitCode := none, dirCreated := true, trainRun := none, trainSamples := none }
    | Except.ok dataset =>
      if dataset.length = 0 then
        { exitCode := some 1, dirCreated := true, trainRun := none, trainSamples := none }
      else
        { exitCode := some 0, dirCreated := true,
          trainRun := some (train split dataset.length),
          trainSamples := some dataset.length }
  else
    { exitCode := some 1, dirCreated := false, trainRun := none, trainSamples := none }

/-- Whether `pat` occurs as a contiguous substring of `s`. -/
def occursIn (pat s : String) : Bool :=
  (List.range (s.toList.length + 1)).any fun i => pat.toList.isPrefixOf (s.toList.drop i)

/-- A line that is a JSON object with non-empty `prompt` and
`completion` fields (the per-line hypothesis of the count claim). -/
def goodLine : PyLine → Bool
  | PyLine.obj fields =>
    (jsonGet fields "prompt" != "") && (jsonGet fields "completion" != "")
  | _ => false

/-- The record (if any) that one input line contributes, considered in
isolation: the order-free per-line summary that the order-preservation
theorem compares the loader against. -/
def lineRecord : PyLine → Option String
  | PyLine.obj fields => processLine fields
  | _ => none

/-- A concrete instantiation of the opaque `train_test_split` length
function, used to instantiate universally quantified theorems: it puts
every record in the train shard. -/
def constSplit : ℚ → Nat → Nat → Nat × Nat := fun _ _ n => (n, 0)

/-- C1 counterexample: the claim says a record is skipped whenever a
field is empty after stripping, but a whitespace-only prompt — empty
after stripping — is truthy in Python, so the line
`{"prompt":"  ","completion":"hi"}` contributes one record, not zero. -/
theorem whitespace_field_not_skipped :
    pyStrip "  " = ""
    ∧ load_dataset [PyLine.obj [("prompt", "  "), ("completion", "hi")]]
        = Except.ok ["<|im_start|>user\n  <|im_end|>\n<|im_start|>assistant\nhi<|im_end|>"]
    ∧ ["<|im_start|>user\n  <|im_end|>\n<|im_start|>assistant\nhi<|im_end|>"].length = 1 :=
  ⟨rfl, rfl, rfl⟩

/-- C1 (amended): a record is skipped exactly when its `prompt` or
`completion` field is the empty string (missing fields default to the
empty string); no stripping is applied to the field values.  In
particular the line with an empty prompt and completion "hi"
contributes zero records. -/
theorem skip_iff_field_empty :
    (∀ fields, processLine fields = none ↔
      (jsonGet fields "prompt" = "" ∨ jsonGet fields "completion" = ""))
    ∧ load_dataset [PyLine.obj [("prompt", ""), ("completion", "hi")]] = Except.ok [] := by
  constructor
  · intro fields
    simp only [processLine]
    split_ifs with h
    · simp only [Option.some_ne_none, false_iff]
      tauto
    · simp only [true_iff]
      tauto
  · rfl

/-- C2 counterexample: on an input whose middle line is malformed, the
loader does not skip the line and return the records of the two
well-formed lines; the decode exception aborts the whole call. -/
theorem malformed_line_not_skipped :
    load_dataset
        [PyLine.obj [("prompt", "a"), ("completion", "b")], PyLine.malformed,
         PyLine.obj [("prompt", "c"), ("completion", "d")]]
      = Except.error PyError.jsonDecodeError
    ∧ (Except.error PyError.jsonDecodeError : Except PyError (List String))
        ≠ Except.ok ["<|im_start|>user\na<|im_end|>\n<|im_start|>assistant\nb<|im_end|>",
            "<|im_start|>user\nc<|im_end|>\n<|im_start|>assistant\nd<|im_end|>"] :=
  ⟨rfl, fun h => Except.noConfusion h⟩

/-- C2 (amended): a malformed non-blank line is not skipped: the
`json.loads` decode error propagates out of `load_dataset`, so any
input containing a malformed line makes the loader raise and return no
records at all. -/
theorem malformed_line_raises :
    ∀ file : List PyLine, PyLine.malformed ∈ file →
      load_dataset file = Except.error PyError.jsonDecodeError := by
  intro file h
  induction file with
  | nil => exact absurd h (List.not_mem_nil _)
  | cons l rest ih =>
    cases l with
    | blank =>
      have hr : PyLine.malformed ∈ rest := by
        rcases List.mem_cons.mp h with h1 | h2
        · exact absurd h1 (by simp)
        · exact h2
      simpa [load_dataset] using ih hr
    | malformed => rfl
    | obj fields =>
      have hr : PyLine.malformed ∈ rest := by
        rcases List.mem_cons.mp h with h1 | h2
        · exact absurd h1 (by simp)
        · exact h2
      simp [load_dataset, ih hr]

/-- Witness for the amended C2 theorem at a concrete two-line input. -/
theorem malformed_line_raises_witness :
    load_dataset [PyLine.obj [("prompt", "a"), ("completion", "b")], PyLine.malformed]
      = Except.error PyError.jsonDecodeError :=
  malformed_line_raises
    [PyLine.obj [("prompt", "a"), ("completion", "b")], PyLine.malformed] (by simp)

/-- C3: prompt "User: hi" with completion "Assistant: hello" yields the
templated string containing "hi" and "hello" with no residual
role-label text from any of the four labels. -/
theorem role_labels_stripped_example :
    load_dataset [PyLine.obj [("prompt", "User: hi"), ("completion", "Assistant: hello")]]
      = Except.ok ["<|im_start|>user\nhi<|im_end|>\n<|im_start|>assistant\nhello<|im_end|>"]
    ∧ occursIn "hi" "<|im_start|>user\nhi<|im_end|>\n<|im_start|>assistant\nhello<|im_end|>" = true
    ∧ occursIn "hello" "<|im_start|>user\nhi<|im_end|>\n<|im_start|>assistant\nhello<|im_end|>" = true
    ∧ occursIn "用户: " "<|im_start|>user\nhi<|im_end|>\n<|im_start|>assistant\nhello<|im_end|>" = false
    ∧ occursIn "User: " "<|im_start|>user\nhi<|im_end|>\n<|im_start|>assistant\nhello<|im_end|>" = false
    ∧ occursIn "助手: " "<|im_start|>user\nhi<|im_end|>\n<|im_start|>assistant\nhello<|im_end|>" = false
    ∧ occursIn "Assistant: " "<|im_start|>user\nhi<|im_end|>\n<|im_start|>assistant\nhello<|im_end|>" = false :=
  ⟨rfl, rfl, rfl, rfl, rfl, rfl, rfl⟩

/-- C9: label removal hits every occurrence, not only a leading one —
prompt "say User: hi" becomes "say hi" — and it is role-specific: a
prompt keeps "Assistant: " and a completion keeps "User: ". -/
theorem replace_all_and_role_specific :
    load_dataset [PyLine.obj [("prompt", "say User: hi"), ("completion", "ok")]]
      = Except.ok ["<|im_start|>user\nsay hi<|im_end|>\n<|im_start|>assistant\nok<|im_end|>"]
    ∧ load_dataset [PyLine.obj [("prompt", "Assistant: hi"), ("completion", "User: ok")]]
      = Except.ok
          ["<|im_start|>user\nAssistant: hi<|im_end|>\n<|im_start|>assistant\nUser: ok<|im_end|>"]
    ∧ occursIn "Assistant: "
        "<|im_start|>user\nAssistant: hi<|im_end|>\n<|im_start|>assistant\nUser: ok<|im_end|>" = true
    ∧ occursIn "User: "
        "<|im_start|>user\nAssistant: hi<|im_end|>\n<|im_start|>assistant\nUser: ok<|im_end|>" = true :=
  ⟨rfl, rfl, rfl, rfl⟩

/-- C4: when every input line is a JSON object with non-empty `prompt`
and `completion`, the loader succeeds and produces exactly one record
per input line. -/
theorem all_valid_count_eq :
    ∀ file : List PyLine, file.all goodLine = true →
      ∃ records, load_dataset file = Except.ok records ∧ records.length = file.length := by
  intro file h
  induction file with
  | nil => exact ⟨[], rfl, rfl⟩
  | cons l rest ih =>
    rw [List.all_cons, Bool.and_eq_true] at h
    obtain ⟨records, hr, hlen⟩ := ih h.2
    cases l with
    | blank => exact absurd h.1 (by simp [goodLine])
    | malformed => exact absurd h.1 (by simp [goodLine])
    | obj fields =>
      have hg := h.1
      simp only [goodLine, Bool.and_eq_true, bne_iff_ne, ne_eq] at hg
      have hproc : processLine fields
          = some (mkText (stripPromptLabels (jsonGet fields "prompt"))
              (stripCompletionLabels (jsonGet fields "completion"))) := by
        simp [processLine, hg.1, hg.2]
      refine ⟨mkText (stripPromptLabels (jsonGet fields "prompt"))
          (stripCompletionLabels (jsonGet fields "completion")) :: records, ?_, ?_⟩
      · simp [load_dataset, hr, hproc]
      · simp [hlen]

/-- Witness for the count theorem at a concrete two-line input. -/
theorem all_valid_count_eq_witness :
    ∃ records,
      load_dataset
          [PyLine.obj [("prompt", "你好"), ("completion", "hi")],
           PyLine.obj [("prompt", "a"), ("completion", "b")]]
        = Except.ok records ∧ records.length = 2 :=
  all_valid_count_eq
    [PyLine.obj [("prompt", "你好"), ("completion", "hi")],
     PyLine.obj [("prompt", "a"), ("completion", "b")]] (by rfl)

/-- C5: the training step calls the library split with `test_size=0.1`
and `seed=42` exactly when the dataset has more than 20 records — 21
records trigger it, 20 do not — and the early-stopping callback is
attached exactly when the split occurred. -/
theorem split_boundary :
    ∀ (split : ℚ → Nat → Nat → Nat × Nat) (n : Nat),
      ((train split n).splitCall = some (1 / 10, 42) ↔ 20 < n)
      ∧ ((train split n).splitCall = none ↔ n ≤ 20)
      ∧ ((train split n).evalLen.isSome = true ↔ 20 < n)
      ∧ ((train split n).earlyStopping = true ↔ (train split n).splitCall ≠ none)
      ∧ (train split 21).splitCall = some (1 / 10, 42)
      ∧ (train split 20).splitCall = none := by
  intro split n
  refine ⟨?_, ?_, ?_, ?_, ?_, ?_⟩ <;>
    (by_cases h : 20 < n <;> simp [train, h] <;> omega)

/-- C6: with a nonexistent `--data` path, the process exits with status
1, no output directory is created (the existence check precedes the
`os.makedirs` call), no training runs, and no metadata is written. -/
theorem missing_data_exits_clean :
    ∀ (split : ℚ → Nat → Nat → Nat × Nat) (file : List PyLine),
      main split false file
        = { exitCode := some 1, dirCreated := false, trainRun := none,
            trainSamples := none } := by
  intro split file
  rfl

/-- C7: assuming the library calls succeed (in particular the loader
returns normally), the process exits with code 1 exactly when the data
file is missing or the loaded dataset is empty, and with code 0
otherwise; the model of `main` has no other exit path. -/
theorem exit_code_iff :
    ∀ (split : ℚ → Nat → Nat → Nat × Nat) (dataExists : Bool) (file : List PyLine)
      (records : List String),
      load_dataset file = Except.ok records →
      ((main split dataExists file).exitCode = some 1
        ↔ (dataExists = false ∨ records = []))
      ∧ ((main split dataExists file).exitCode = some 0
        ↔ (dataExists = true ∧ records ≠ [])) := by
  intro split de file records h
  cases de
  · simp [main]
  · simp only [main, h, if_true]
    rcases records with _ | ⟨r, rs⟩ <;> simp

/-- Witness for the exit-code theorem: a one-line valid input with the
data file present completes with exit code 0. -/
theorem exit_code_iff_witness :
    (main constSplit true [PyLine.obj [("prompt", "hi"), ("completion", "ok")]]).exitCode
      = some 0 :=
  (exit_code_iff constSplit true [PyLine.obj [("prompt", "hi"), ("completion", "ok")]]
      ["<|im_start|>user\nhi<|im_end|>\n<|im_start|>assistant\nok<|im_end|>"] rfl).2.mpr
    ⟨rfl, by simp⟩

/-- C8: on any input without malformed lines the loader returns exactly
the in-order list of the records its lines contribute, so output order
follows input order. -/
theorem loader_preserves_order :
    ∀ file : List PyLine, PyLine.malformed ∉ file →
      load_dataset file = Except.ok (file.filterMap lineRecord) := by
  intro file h
  induction file with
  | nil => rfl
  | cons l rest ih =>
    have hrest : PyLine.malformed ∉ rest := fun hm => h (List.mem_cons_of_mem _ hm)
    cases l with
    | blank => simpa [load_dataset, lineRecord] using ih hrest
    | malformed => exact absurd (List.mem_cons_self _ _) h
    | obj fields =>
      simp only [load_dataset, ih hrest, List.filterMap_cons, lineRecord]
      cases hp : processLine fields <;> simp [hp]

/-- Witness for the order theorem at a concrete four-line input mixing
blank, skipped and kept lines. -/
theorem loader_preserves_order_witness :
    load_dataset
        [PyLine.blank, PyLine.obj [("prompt", "a"), ("completion", "b")],
         PyLine.obj [("prompt", ""), ("completion", "x")],
         PyLine.obj [("prompt", "c"), ("completion", "d")]]
      = Except.ok
          ([PyLine.blank, PyLine.obj [("prompt", "a"), ("completion", "b")],
            PyLine.obj [("prompt", ""), ("completion", "x")],
            PyLine.obj [("prompt", "c"), ("completion", "d")]].filterMap lineRecord) :=
  loader_preserves_order
    [PyLine.blank, PyLine.obj [("prompt", "a"), ("completion", "b")],
     PyLine.obj [("prompt", ""), ("completion", "x")],
     PyLine.obj [("prompt", "c"), ("completion", "d")]] (by decide)

/-- C10: for any length-preserving split routine, a completed run
writes `train_samples` equal to the full loaded record count — the sum
of the train and validation shard sizes — because the split rebinds
the dataset only locally inside `train`. -/
theorem train_samples_total :
    ∀ (split : ℚ → Nat → Nat → Nat × Nat) (file : List PyLine) (records : List String),
      (∀ q s n, (split q s n).1 + (split q s n).2 = n) →
      load_dataset file = Except.ok records →
      records ≠ [] →
      ∃ tr, (main split true file).trainRun = some tr
        ∧ (main split true file).trainSamples = some (tr.trainLen + tr.evalLen.getD 0)
        ∧ (main split true file).trainSamples = some records.length := by
  intro split file records hsplit h hne
  have hlen : ¬records.length = 0 := fun h0 => hne (List.length_eq_zero.mp h0)
  have hsum : (train split records.length).trainLen
      + ((train split records.length).evalLen.getD 0) = records.length := by
    by_cases h20 : 20 < records.length <;> simp [train, h20, hsplit]
  refine ⟨train split records.length, ?_, ?_, ?_⟩
  · simp [main, h, hlen]
  · simp [main, h, hlen, hsum]
  · simp [main, h, hlen]

/-- Witness for the metadata theorem: 21 valid lines, a split that
keeps every record in the train shard, and `train_samples = 21`. -/
theorem train_samples_total_witness :
    ∃ tr,
      (main constSplit true
          (List.replicate 21 (PyLine.obj [("prompt", "你好"), ("completion", "hi")]))).trainRun
        = some tr
      ∧ (main constSplit true
          (List.replicate 21 (PyLine.obj [("prompt", "你好"), ("completion", "hi")]))).trainSamples
        = some (tr.trainLen + tr.evalLen.getD 0)
      ∧ (main constSplit true
          (List.replicate 21 (PyLine.obj [("prompt", "你好"), ("completion", "hi")]))).trainSamples
        = some 21 :=
  train_samples_total constSplit
    (List.replicate 21 (PyLine.obj [("prompt", "你好"), ("completion", "hi")]))
    (List.replicate 21 "<|im_start|>user\n你好<|im_end|>\n<|im_start|>assistant\nhi<|im_end|>")
    (fun _ _ _ => rfl) rfl (by decide)

end Finetune
